import Mathlib

/-!
A shallow embedding of the digitalSignatureDeclaration pipeline
(src/digitalSignatureDeclaration/signing.py and utils.py).

PDF pages are modelled as mediabox dimensions (exact rationals, in points)
together with an abstract content term that records how the page content was
produced (source content, rendered overlay lines, page compositing, and
rasterization with image-paste operations).  External library behaviour that
the program treats as a black box is modelled accordingly: the pdf2image
rasterizer is a parameter producing one pixel bitmap per page, and font
metrics used only for horizontal centering are abstracted away.  File-system
effects of the pipeline are reified as an explicit operation trace together
with a small store semantics.
-/

set_option maxRecDepth 10000

namespace DigitalSignatureDeclaration

/-- Which of the two signature image assets a paste uses: the primary
signature asset or the secondary (domicar) signature asset. -/
inductive SigKind where
  | primary
  | secondary
deriving DecidableEq

/-- One PIL Image.paste call performed by add_signatures: which asset, the
size it was resized to, the top-left paste coordinate, and whether the image
itself was passed as the paste mask (using its own transparency). -/
structure PasteOp where
  kind : SigKind
  size : ℕ × ℕ
  pos : ℤ × ℤ
  maskIsImageAlpha : Bool
deriving DecidableEq

/-- Abstract content of a PDF page.  composited base top records a pdfrw
PageMerge of top drawn over base (top rendered after, hence on top);
raster records a pdf2image rasterization of the original content followed by
the given image-paste operations. -/
inductive Content where
  | source (id : ℕ)
  | overlay (lines : List String)
  | composited (base top : Content)
  | raster (orig : Content) (pastes : List PasteOp)
deriving DecidableEq

/-- A PDF page: mediabox width and height in points (exact rationals, so the
scaling arithmetic of adjust_pdf_size is captured without floating point),
plus abstract content. -/
structure PdfPage where
  width : ℚ
  height : ℚ
  content : Content
deriving DecidableEq

/-- Python str.lower, per code point.  On the inputs this program compares
(ASCII gender keys and their capitalization variants) Python lowercasing
agrees with the ASCII case mapping used here; Hebrew has no letter case. -/
def py_str_lower (s : String) : String :=
  String.mk (s.data.map Char.toLower)

/-- Fuel-driven core of Python str.replace for a non-empty pattern: scan left
to right, and wherever the pattern is a prefix of the remaining text, emit the
replacement and skip the pattern length, so occurrences are replaced
non-overlapping, leftmost first.  The fuel is instantiated with the text
length, which suffices for every step. -/
def replaceFuel (old new : List Char) : ℕ → List Char → List Char
  | 0, s => s
  | _ + 1, [] => []
  | fuel + 1, c :: rest =>
    if old ≠ [] ∧ old <+: (c :: rest) then
      new ++ replaceFuel old new fuel (rest.drop (old.length - 1))
    else
      c :: replaceFuel old new fuel rest

/-- Python str.replace on code-point lists, including the empty-pattern case
(an empty pattern inserts the replacement before every character and at the
end, as Python does). -/
def py_str_replace (s old new : List Char) : List Char :=
  if old = [] then
    new ++ (s.map (fun c => c :: new)).flatten
  else
    replaceFuel old new s.length s

/-- signing.py process_hebrew_text: reverse the line (Python line[::-1]) and
then replace every occurrence of the reversed date with the date itself. -/
def process_hebrew_text (line current_date : String) : String :=
  let reversed_line := line.data.reverse
  String.mk (py_str_replace reversed_line current_date.data.reverse current_date.data)

/-- Modelled from the spec: the directionality-processing reference
definition, in the words of the specification — reverse the whole line
character by character, then replace every occurrence of the reversed date
substring with the date in its natural form. -/
def directionality_spec (line date : String) : String :=
  String.mk (py_str_replace line.data.reverse date.data.reverse date.data)

/-- The seven gendered vocabulary slots of the gender_terms dict. -/
structure GenderTerms where
  title : String
  known : String
  warned : String
  pronoun : String
  expected : String
  confirmed : String
  signed : String
deriving DecidableEq

/-- Company-marker substring scanned for by utils.py detect_declaration_type. -/
def companyMarker : String := "פרטי החברה השוכרת"

/-- Foreigner-marker substring scanned for by utils.py detect_declaration_type. -/
def foreignerMarker : String := "זר"

/-- The male-variant vocabulary from the gender_terms dict in generate_declaration_text. -/
def male_terms : GenderTerms where
  title := "מר"
  known := "המוכר"
  warned := "שהוזהר"
  pronoun := "עליו"
  expected := "צפוי"
  confirmed := "אישר"
  signed := "חתם"

/-- The female-variant vocabulary from the gender_terms dict in generate_declaration_text. -/
def female_terms : GenderTerms where
  title := "גב"
  known := "המוכרת"
  warned := "שהוזהרה"
  pronoun := "עליה"
  expected := "צפויה"
  confirmed := "אישרה"
  signed := "חתמה"

/-- Python dict lookup gender_terms.get with male default, as on line 62 of signing.py on the two fixed keys. -/
def gender_terms_get (key : String) : GenderTerms :=
  if key = "male" then male_terms
  else if key = "female" then female_terms
  else male_terms

/-- signing.py generate_declaration_text: builds the 8 Hebrew declaration lines,
selecting gendered vocabulary by the lowercased gender with male fallback. -/
def generate_declaration_text (current_date declarator_name id_number declarator_gender : String) : List String :=
  let terms := gender_terms_get (py_str_lower declarator_gender)
  [" הריני מאשרת כי ביום " ++ current_date ++ " הופיע בפני ",
   "עו\"ד מירי רז במשרדי שברחוב השרון 1 קריית שדה התעופה",
   terms.title ++ " " ++ declarator_name ++ " ת.ז " ++ id_number ++ " " ++ terms.known ++ " לי אישית,",
   "ולאחר " ++ terms.warned ++ " כי " ++ terms.pronoun ++ " לאמר את האמת אחרת יהיה",
   terms.expected ++ " לעונשים הקבועים בחוק אם לא יעשה כן,",
   terms.confirmed ++ " את נכונות ההצהרה ) " ++ terms.signed ++ " עליה בפני (",
   "**************************************",
   "מירי רז יוקל מ.ר 23145"]

/-- The 8 declaration lines with the male vocabulary substituted inline
(reference spelling for the claim about gendered term selection). -/
def male_variant_lines (current_date declarator_name id_number : String) : List String :=
  [" הריני מאשרת כי ביום " ++ current_date ++ " הופיע בפני ",
   "עו\"ד מירי רז במשרדי שברחוב השרון 1 קריית שדה התעופה",
   "מר" ++ " " ++ declarator_name ++ " ת.ז " ++ id_number ++ " " ++ "המוכר" ++ " לי אישית,",
   "ולאחר " ++ "שהוזהר" ++ " כי " ++ "עליו" ++ " לאמר את האמת אחרת יהיה",
   "צפוי" ++ " לעונשים הקבועים בחוק אם לא יעשה כן,",
   "אישר" ++ " את נכונות ההצהרה ) " ++ "חתם" ++ " עליה בפני (",
   "**************************************",
   "מירי רז יוקל מ.ר 23145"]

/-- The 8 declaration lines with the female vocabulary substituted inline. -/
def female_variant_lines (current_date declarator_name id_number : String) : List String :=
  [" הריני מאשרת כי ביום " ++ current_date ++ " הופיע בפני ",
   "עו\"ד מירי רז במשרדי שברחוב השרון 1 קריית שדה התעופה",
   "גב" ++ " " ++ declarator_name ++ " ת.ז " ++ id_number ++ " " ++ "המוכרת" ++ " לי אישית,",
   "ולאחר " ++ "שהוזהרה" ++ " כי " ++ "עליה" ++ " לאמר את האמת אחרת יהיה",
   "צפויה" ++ " לעונשים הקבועים בחוק אם לא יעשה כן,",
   "אישרה" ++ " את נכונות ההצהרה ) " ++ "חתמה" ++ " עליה בפני (",
   "**************************************",
   "מירי רז יוקל מ.ר 23145"]

/-- The concrete declarant name used by the end-to-end acceptance scenario. -/
def hebrew_name_avi : String := "אבי"

/-- utils.py detect_declaration_type, on the sequence of per-page extracted
texts: scan the pages in order; on each page check the company marker first,
then the foreigner marker, returning at the first page containing a marker;
default israeli when no page contains either.  Python substring membership is
code-point-list infix. -/
def detect_declaration_type : List String → String
  | [] => "israeli"
  | t :: rest =>
    if companyMarker.data <:+: t.data then "company"
    else if foreignerMarker.data <:+: t.data then "foreigner"
    else detect_declaration_type rest

/-- ReportLab letter page size, in points. -/
def letter_width : ℚ := 612

/-- ReportLab letter page size, in points. -/
def letter_height : ℚ := 792

/-- signing.py create_declaration_pdf: a letter-sized single page whose
content is the directionality-processed lines.  Horizontal placement uses
ReportLab font metrics (external black box) and is abstracted away; the lines
are recorded in drawing order. -/
def create_declaration_pdf (signature_text_lines : List String) (current_date : String) : PdfPage :=
  { width := letter_width
    height := letter_height
    content := Content.overlay (signature_text_lines.map (fun l => process_hebrew_text l current_date)) }

/-- The fixed intermediate path written by merge_pdfs. -/
def intermediate_output_file : String := "signed_declaration.pdf"

/-- pdfrw PageMerge(first_page).add(merge_page).render(): the overlay content
is drawn after, hence on top of, the base page content; the mediabox of the
base page is kept. -/
def composite (base top : PdfPage) : PdfPage :=
  { width := base.width, height := base.height
    content := Content.composited base.content top.content }

/-- signing.py merge_pdfs: composite the declaration page onto page 0 of the
input document and write a document holding exactly the page(s) added to the
PdfWriter — which is only the composited first page — at the fixed
intermediate path.  none models the IndexError raised on a zero-page input
(reader.pages[0]). -/
def merge_pdfs (input_doc : List PdfPage) (declaration_page : PdfPage) : Option (String × List PdfPage) :=
  match input_doc with
  | [] => none
  | first_page :: _ => some (intermediate_output_file, [composite first_page declaration_page])

/-- The paste of the primary signature asset in add_signatures: resized to
600 by 600, pasted at (350, 1320), with the image itself as the mask. -/
def primary_paste : PasteOp :=
  { kind := SigKind.primary, size := (600, 600), pos := (350, 1320), maskIsImageAlpha := true }

/-- A paste of the secondary (domicar) signature asset in add_signatures:
resized to 650 by 650, pasted at the given coordinate, with the image itself
as the mask. -/
def secondary_paste (pos : ℤ × ℤ) : PasteOp :=
  { kind := SigKind.secondary, size := (650, 650), pos := pos, maskIsImageAlpha := true }

/-- A page after rasterization by the external rasterizer and re-encoding by
PIL: the mediabox equals the bitmap pixel dimensions, and the content records
the original content plus the paste operations applied to the bitmap. -/
def rasterized (raster : PdfPage → ℕ × ℕ) (p : PdfPage) (pastes : List PasteOp) : PdfPage :=
  { width := ((raster p).1 : ℚ), height := ((raster p).2 : ℚ)
    content := Content.raster p.content pastes }

/-- signing.py add_signatures: rasterize every page (raster is the pdf2image
black box giving the bitmap size per page), paste the primary signature on
page 0 unconditionally, then the secondary signature at a coordinate selected
by the declaration type — foreigner, company, israeli, and nothing for any
other value — and re-encode all pages in order.  none models the IndexError
on an empty page list (pages[0]). -/
def add_signatures (doc : List PdfPage) (declaration_type : String) (raster : PdfPage → ℕ × ℕ) : Option (List PdfPage) :=
  match doc with
  | [] => none
  | page0 :: rest =>
    let secondaries :=
      if declaration_type = "foreigner" then [secondary_paste (-30, 1820)]
      else if declaration_type = "company" then [secondary_paste (-30, 900)]
      else if declaration_type = "israeli" then [secondary_paste (-30, 1650)]
      else []
    some (rasterized raster page0 (primary_paste :: secondaries)
          :: rest.map (fun p => rasterized raster p []))

/-- The fixed target width of adjust_pdf_size, in points. -/
def desired_width : ℚ := 595.28

/-- The fixed target height of adjust_pdf_size, in points. -/
def desired_height : ℚ := 841.89

/-- PyPDF2 page.scale_by: multiplies both mediabox dimensions by the one
factor. -/
def scale_by (p : PdfPage) (factor : ℚ) : PdfPage :=
  { p with width := p.width * factor, height := p.height * factor }

/-- signing.py adjust_pdf_size: read page 0, compute the horizontal scale
factor desired_width / width and the vertical scale factor
desired_height / height, apply only the horizontal factor via scale_by, and
write a document holding only page 0.  none models the IndexError on an empty
document and the ZeroDivisionError raised while computing either factor when
a dimension is zero (both factors are computed, so a zero height also
raises even though the vertical factor is never applied). -/
def adjust_pdf_size (doc : List PdfPage) : Option (List PdfPage) :=
  match doc with
  | [] => none
  | page0 :: _ =>
    if page0.width = 0 ∨ page0.height = 0 then none
    else
      let scale_factor_width := desired_width / page0.width
      some [scale_by page0 scale_factor_width]

/-- Python os.path.join for POSIX paths, restricted to the two-argument form
the pipeline uses. -/
def os_path_join (folder name : String) : String :=
  if name.data.head? = some '/' then name
  else if folder = "" then name
  else if folder.data.getLast? = some '/' then folder ++ name
  else folder ++ "/" ++ name

/-- The fixed final output file name used by sign_declaration. -/
def final_output_file : String := "final_output_with_signature.pdf"

/-- A file-system operation performed by the pipeline: writing a document to
a path (creating or overwriting it) or removing the file at a path. -/
inductive FsOp where
  | writeFile (path : String) (doc : List PdfPage)
  | removeFile (path : String)
deriving DecidableEq

/-- Store semantics of one file-system operation on a map from paths to file
contents. -/
def applyFsOp (fs : String → Option (List PdfPage)) : FsOp → String → Option (List PdfPage)
  | FsOp.writeFile p d => fun q => if q = p then some d else fs q
  | FsOp.removeFile p => fun q => if q = p then none else fs q

/-- Run a trace of file-system operations left to right on an initial
store. -/
def runFs (fs : String → Option (List PdfPage)) : List FsOp → String → Option (List PdfPage)
  | [] => fs
  | op :: rest => runFs (applyFsOp fs op) rest

/-- Whether an operation is a file removal. -/
def isRemoveOp : FsOp → Bool
  | FsOp.removeFile _ => true
  | FsOp.writeFile _ _ => false

/-- The shape of an operation: whether it is a removal, and the path it
touches. -/
def fsOpPath : FsOp → Bool × String
  | FsOp.writeFile p _ => (false, p)
  | FsOp.removeFile p => (true, p)

/-- Replay check: a pipeline result is replay-correct for an initial store
when running its operation trace leaves exactly the produced final document
at the returned output path. -/
def trace_replays_ok (fs0 : String → Option (List PdfPage)) : Option (String × List PdfPage × List FsOp) → Prop
  | none => True
  | some (path, doc, trace) => runFs fs0 trace path = some doc

/-- signing.py sign_declaration: the end-to-end pipeline.  Inputs beyond the
Python signature: current_date stands for date.today() (environment), raster
is the pdf2image black box, and fs is the initial file-system store consulted
by os.path.isfile.  The result carries the returned output path, the final
document, and the trace of file-system operations in program order:
merge_pdfs writes the intermediate file, then any existing final output file
is removed, then add_signatures writes the stamped document to the output
path, then adjust_pdf_size rewrites the output path with the rescaled
document.  none models an exception aborting the pipeline. -/
def sign_declaration (name id_number : String) (input_doc : List PdfPage)
    (output_folder declaration_type declarator_gender current_date : String)
    (raster : PdfPage → ℕ × ℕ) (fs : String → Option (List PdfPage)) :
    Option (String × List PdfPage × List FsOp) :=
  let id_number_reversed := String.mk id_number.data.reverse
  let signature_text_lines := generate_declaration_text current_date name id_number_reversed declarator_gender
  let declaration_page := create_declaration_pdf signature_text_lines current_date
  match merge_pdfs input_doc declaration_page with
  | none => none
  | some (merged_path, merged_doc) =>
    let output_pdf_path := os_path_join output_folder final_output_file
    let pre_delete := if (fs output_pdf_path).isSome then [FsOp.removeFile output_pdf_path] else []
    match add_signatures merged_doc declaration_type raster with
    | none => none
    | some stamped_doc =>
      match adjust_pdf_size stamped_doc with
      | none => none
      | some final_doc =>
        some (output_pdf_path, final_doc,
          FsOp.writeFile merged_path merged_doc
            :: pre_delete
            ++ [FsOp.writeFile output_pdf_path stamped_doc, FsOp.writeFile output_pdf_path final_doc])

/-- Projection of a pipeline result onto the returned output path and the
final page dimensions, dropping content and trace. -/
def dims_view : Option (String × List PdfPage × List FsOp) → Option (String × List (ℚ × ℚ))
  | none => none
  | some r => some (r.1, r.2.1.map (fun q => (q.width, q.height)))

/-- Projection of a pipeline result onto the returned output path. -/
def path_view : Option (String × List PdfPage × List FsOp) → Option String
  | none => none
  | some r => some r.1

/-- Projection of a pipeline result onto the removal operations of its
file-system trace. -/
def removals_view : Option (String × List PdfPage × List FsOp) → Option (List FsOp)
  | none => none
  | some r => some (r.2.2.filter isRemoveOp)

/-- Projection of a pipeline result onto the shapes (removal flag and path)
of its file-system trace, in program order. -/
def trace_shape_view : Option (String × List PdfPage × List FsOp) → Option (List (Bool × String))
  | none => none
  | some r => some (r.2.2.map fsOpPath)

/-- A rasterizer returning the same bitmap size for every page. -/
def const_raster (w h : ℕ) : PdfPage → ℕ × ℕ := fun _ => (w, h)

/-- The empty initial file-system store. -/
def no_fs : String → Option (List PdfPage) := fun _ => none

/-- An initial store holding a (stale) file at the standard output path under
the folder "/out". -/
def fs_with_stale_output : String → Option (List PdfPage) :=
  fun q => if q = "/out/final_output_with_signature.pdf" then some [] else none

/-- A small concrete page used to instantiate universally quantified
theorems. -/
def sample_page : PdfPage := { width := 10, height := 12, content := Content.source 0 }


/-! Helper lemmas about the Python string-replace model. -/

/-- Replacing with a pattern and replacement of equal length preserves the
text length. -/
theorem replaceFuel_length (old new : List Char) (hlen : old.length = new.length) :
    ∀ fuel s, s.length ≤ fuel → (replaceFuel old new fuel s).length = s.length := by
  intro fuel
  induction fuel with
  | zero => intro s _; rfl
  | succ f ih =>
    intro s hs
    cases s with
    | nil => rfl
    | cons c rest =>
      have hrest : rest.length ≤ f := by simpa using hs
      rw [replaceFuel]
      by_cases h : old ≠ [] ∧ old <+: (c :: rest)
      · rw [if_pos h]
        have hol : 0 < old.length := List.length_pos.mpr h.1
        have hle : old.length ≤ rest.length + 1 := by simpa using h.2.length_le
        rw [List.length_append, ih _ (by simp only [List.length_drop]; omega)]
        simp only [List.length_drop, List.length_cons]
        omega
      · rw [if_neg h]
        simp [ih rest hrest]

/-- A replaced text contains the replacement whenever the pattern occurred. -/
theorem replaceFuel_infix (old new : List Char) (hne : old ≠ []) :
    ∀ fuel s, s.length ≤ fuel → old <:+: s → new <:+: replaceFuel old new fuel s := by
  intro fuel
  induction fuel with
  | zero =>
    intro s hs hinf
    have hn : s = [] := List.eq_nil_of_length_eq_zero (Nat.le_zero.mp hs)
    subst hn
    exact absurd (List.eq_nil_of_infix_nil hinf) hne
  | succ f ih =>
    intro s hs hinf
    cases s with
    | nil => exact absurd (List.eq_nil_of_infix_nil hinf) hne
    | cons c rest =>
      have hrest : rest.length ≤ f := by simpa using hs
      rw [replaceFuel]
      by_cases h : old ≠ [] ∧ old <+: (c :: rest)
      · rw [if_pos h]
        exact ⟨[], replaceFuel old new f (rest.drop (old.length - 1)), by simp⟩
      · rw [if_neg h]
        have hpre : ¬ old <+: (c :: rest) := fun hp => h ⟨hne, hp⟩
        have htail : old <:+: rest := by
          rcases List.infix_cons_iff.mp hinf with hp | hi
          · exact absurd hp hpre
          · exact hi
        rcases ih rest hrest htail with ⟨u, v, huv⟩
        exact ⟨c :: u, v, by rw [← huv]; simp⟩

/-- Length of the empty-pattern replacement expansion. -/
theorem flatten_map_cons_length (new : List Char) (s : List Char) :
    ((s.map (fun c => c :: new)).flatten).length = s.length * (new.length + 1) := by
  induction s with
  | nil => simp
  | cons c rest ih => simp [ih]; ring

/-! Helper lemmas about category detection. -/

/-- If some page contains the company marker and no earlier page contains the
foreigner marker, detection answers company. -/
theorem detect_company_of_no_earlier_foreigner :
    ∀ (pre : List String) (t : String) (post : List String),
      companyMarker.data <:+: t.data →
      (∀ s ∈ pre, ¬ foreignerMarker.data <:+: s.data) →
      detect_declaration_type (pre ++ t :: post) = "company" := by
  intro pre
  induction pre with
  | nil =>
    intro t post hct _
    simp [detect_declaration_type, hct]
  | cons s pre ih =>
    intro t post hct hpre
    by_cases hcs : companyMarker.data <:+: s.data
    · simp [detect_declaration_type, hcs]
    · have hfs : ¬ foreignerMarker.data <:+: s.data := hpre s (List.mem_cons_self s pre)
      simp only [List.cons_append, detect_declaration_type, if_neg hcs, if_neg hfs]
      exact ih t post hct (fun x hx => hpre x (List.mem_cons_of_mem _ hx))

/-- If no page contains either marker, detection answers israeli. -/
theorem detect_israeli_of_no_marker :
    ∀ pages : List String,
      (∀ t ∈ pages, ¬ companyMarker.data <:+: t.data ∧ ¬ foreignerMarker.data <:+: t.data) →
      detect_declaration_type pages = "israeli" := by
  intro pages
  induction pages with
  | nil => intro _; rfl
  | cons t rest ih =>
    intro h
    have ht := h t (List.mem_cons_self t rest)
    simp only [detect_declaration_type, if_neg ht.1, if_neg ht.2]
    exact ih (fun x hx => h x (List.mem_cons_of_mem _ hx))

/-! Helper lemma evaluating the pipeline on a 1-page document with a
constant-size rasterizer. -/

/-- Output path and final page dimensions of the pipeline on a 1-page source
document: the path is folder/final_output_with_signature.pdf, exactly one
page comes out, its width is rescaled exactly to the target width, and its
height is the bitmap height scaled by the horizontal factor. -/
theorem sign_declaration_dims (name idn : String) (p : PdfPage)
    (folder t g date : String) (fs : String → Option (List PdfPage)) (w h : ℕ)
    (hw : w ≠ 0) (hh : h ≠ 0) :
    dims_view (sign_declaration name idn [p] folder t g date (const_raster w h) fs) =
      some (os_path_join folder final_output_file,
            [(desired_width, (h : ℚ) * (desired_width / (w : ℚ)))]) := by
  have hwq : ((w : ℚ)) ≠ 0 := Nat.cast_ne_zero.mpr hw
  have hhq : ((h : ℚ)) ≠ 0 := Nat.cast_ne_zero.mpr hh
  have hcancel : (w : ℚ) * (desired_width / (w : ℚ)) = desired_width := by
    field_simp
  simp only [sign_declaration, merge_pdfs, add_signatures, adjust_pdf_size, rasterized,
    const_raster, scale_by, hwq, hhq, or_self, if_false]
  simp [dims_view, hcancel]

/-! Claim theorems. -/

/-- Claim C1, counterexample: on a 2-page source document the merged document
is not the composited first page followed by the unchanged second page — the
second page is dropped — so the claim that every page after the first is
present and unchanged is false as stated. -/
theorem c1_counterexample :
    (merge_pdfs [sample_page, { width := 30, height := 40, content := Content.source 1 }]
        (create_declaration_pdf [] "d")).map Prod.snd ≠
      some [composite sample_page (create_declaration_pdf [] "d"),
            { width := 30, height := 40, content := Content.source 1 }] := by
  simp [merge_pdfs]

/-- Claim C1, amended: for every source document with at least one page, the
Page Merger composites the overlay onto page 0 (overlay drawn on top of the
source content, recorded by the composited constructor) and persists, at the
fixed intermediate path signed_declaration.pdf, a document containing only
that composited first page; every page after the first is dropped. -/
theorem c1_claim (first_page : PdfPage) (rest : List PdfPage) (declaration_page : PdfPage) :
    merge_pdfs (first_page :: rest) declaration_page =
      some (intermediate_output_file, [composite first_page declaration_page]) ∧
    (composite first_page declaration_page).content =
      Content.composited first_page.content declaration_page.content ∧
    intermediate_output_file = "signed_declaration.pdf" :=
  ⟨rfl, rfl, rfl⟩

/-- Claim C2, counterexample: a document whose first page contains only the
foreigner marker and whose second page contains the company marker is
classified foreigner, not company, although the company marker appears in the
document — the page loop returns at the first page containing any marker, so
the company-before-foreigner priority holds only within a single page. -/
theorem c2_counterexample :
    companyMarker.data <:+: companyMarker.data ∧
    detect_declaration_type [foreignerMarker, companyMarker] = "foreigner" ∧
    detect_declaration_type [foreignerMarker, companyMarker] ≠ "company" :=
  ⟨⟨[], [], by simp⟩, by decide, by decide⟩

/-- Claim C2, amended: category detection returns company whenever some page
contains the company marker and no earlier page contains the foreigner
marker (within each page the company check precedes the foreigner check);
and if neither marker appears on any page it returns israeli. -/
theorem c2_claim :
    (∀ (pre : List String) (t : String) (post : List String),
        companyMarker.data <:+: t.data →
        (∀ s ∈ pre, ¬ foreignerMarker.data <:+: s.data) →
        detect_declaration_type (pre ++ t :: post) = "company") ∧
    (∀ pages : List String,
        (∀ t ∈ pages, ¬ companyMarker.data <:+: t.data ∧ ¬ foreignerMarker.data <:+: t.data) →
        detect_declaration_type pages = "israeli") :=
  ⟨detect_company_of_no_earlier_foreigner, detect_israeli_of_no_marker⟩

/-- Witness for the C2 theorem at concrete documents. -/
theorem c2_witness :
    detect_declaration_type [companyMarker] = "company" ∧
    detect_declaration_type ["abc"] = "israeli" :=
  ⟨c2_claim.1 [] companyMarker [] ⟨[], [], by simp⟩ (by simp),
   c2_claim.2 ["abc"] (by decide)⟩

/-- Claim C3: the size-normalization stage computes both scale factors (the
vertical one is observable through the zero-height error guard) but applies
only the horizontal factor desired_width / width to the page transform:
page 0 is rescaled by that single factor in both axes, the resulting width is
exactly the target width, and the resulting height is the original height
times the horizontal factor — the vertical factor desired_height / height is
never applied. -/
theorem c3_claim (page0 : PdfPage) (rest : List PdfPage)
    (hw : page0.width ≠ 0) (hh : page0.height ≠ 0) :
    adjust_pdf_size (page0 :: rest) = some [scale_by page0 (desired_width / page0.width)] ∧
    (scale_by page0 (desired_width / page0.width)).width = desired_width ∧
    (scale_by page0 (desired_width / page0.width)).height =
      page0.height * (desired_width / page0.width) := by
  refine ⟨?_, ?_, rfl⟩
  · simp [adjust_pdf_size, hw, hh]
  · show page0.width * (desired_width / page0.width) = desired_width
    field_simp

/-- Witness for the C3 theorem at a concrete page. -/
theorem c3_witness :
    adjust_pdf_size [sample_page] = some [scale_by sample_page (desired_width / sample_page.width)] ∧
    (scale_by sample_page (desired_width / sample_page.width)).width = desired_width ∧
    (scale_by sample_page (desired_width / sample_page.width)).height =
      sample_page.height * (desired_width / sample_page.width) :=
  c3_claim sample_page [] (by norm_num [sample_page]) (by norm_num [sample_page])

/-- Claim C4, counterexample: with the acceptance-scenario inputs and a
rasterizer producing a 1654 by 2339 bitmap (the pdf2image default of 200 dpi
on an A4 page), the pipeline output page dimensions are not exactly
(595.28, 841.89): only the width factor is applied, so the height comes out
as 2339 scaled by the horizontal factor, which differs from 841.89. -/
theorem c4_counterexample :
    dims_view (sign_declaration hebrew_name_avi "123456789" [sample_page] "/out" "israeli"
        "male" "12-10-2025" (const_raster 1654 2339) no_fs) ≠
      some (os_path_join "/out" final_output_file, [(desired_width, desired_height)]) := by
  rw [sign_declaration_dims hebrew_name_avi "123456789" sample_page "/out" "israeli" "male"
    "12-10-2025" no_fs 1654 2339 (by norm_num) (by norm_num)]
  simp only [ne_eq, Option.some.injEq, Prod.mk.injEq, List.cons.injEq, and_true, true_and,
    not_and]
  intro hcontra
  norm_num [desired_width, desired_height] at hcontra

/-- Claim C4, amended: for a 1-page source document with the
acceptance-scenario inputs (name אבי, identifier 123456789, category israeli,
gender male) and any bitmap size w by h (w, h nonzero) produced by the
black-box rasterizer, the pipeline returns the path
outputDirectory/final_output_with_signature.pdf, the output document has
exactly one page (the same count as the 1-page source), the page width is
exactly 595.28, and the page height is h scaled by the horizontal factor
595.28 / w — equal to 841.89 only when h / w is exactly the target aspect
ratio. -/
theorem c4_claim (p : PdfPage) (folder date : String)
    (fs : String → Option (List PdfPage)) (w h : ℕ) (hw : 0 < w) (hh : 0 < h) :
    dims_view (sign_declaration hebrew_name_avi "123456789" [p] folder "israeli" "male" date
        (const_raster w h) fs) =
      some (os_path_join folder final_output_file,
            [(desired_width, (h : ℚ) * (desired_width / (w : ℚ)))]) :=
  sign_declaration_dims hebrew_name_avi "123456789" p folder "israeli" "male" date fs w h
    hw.ne' hh.ne'

/-- Witness for the C4 theorem at a concrete page and bitmap size. -/
theorem c4_witness :
    dims_view (sign_declaration hebrew_name_avi "123456789" [sample_page] "/out" "israeli"
        "male" "12-10-2025" (const_raster 1654 2339) no_fs) =
      some (os_path_join "/out" final_output_file,
            [(desired_width, ((2339 : ℕ) : ℚ) * (desired_width / ((1654 : ℕ) : ℚ)))]) :=
  c4_claim sample_page "/out" "12-10-2025" no_fs 1654 2339 (by norm_num) (by norm_num)

/-- Claim C5: the directionality-processing function equals the reference
definition taken from the words of the specification — reverse the whole
line, then replace every occurrence of the reversed date substring with the
date in its natural form — and consequently a date occurring in the input
line appears in natural order in the processed output. -/
theorem c5_claim :
    (∀ line date : String, process_hebrew_text line date = directionality_spec line date) ∧
    (∀ line date : String, date ≠ "" → date.data <:+: line.data →
      date.data <:+: (process_hebrew_text line date).data) := by
  constructor
  · intro line date
    rfl
  · intro line date hne hinf
    have hdata : date.data ≠ [] := by
      intro hd
      apply hne
      cases date
      simp_all
    have hrne : date.data.reverse ≠ [] := by simpa using hdata
    have hrev : date.data.reverse <:+: line.data.reverse := List.reverse_infix.mpr hinf
    show date.data <:+: py_str_replace line.data.reverse date.data.reverse date.data
    rw [py_str_replace, if_neg hrne]
    exact replaceFuel_infix _ _ hrne _ _ (le_refl _) hrev

/-- Witness for the C5 theorem at a concrete line and date. -/
theorem c5_witness :
    process_hebrew_text "x 01-02-2024 y" "01-02-2024" =
      directionality_spec "x 01-02-2024 y" "01-02-2024" ∧
    "01-02-2024".data <:+: (process_hebrew_text "x 01-02-2024 y" "01-02-2024").data :=
  ⟨c5_claim.1 "x 01-02-2024 y" "01-02-2024",
   c5_claim.2 "x 01-02-2024 y" "01-02-2024" (by decide) (by decide)⟩

/-- Claim C6: the stamper always pastes the primary signature, resized to
600 by 600, at (350, 1320) with the image itself as mask; the secondary
signature, resized to 650 by 650, is pasted at (-30, 1820) for foreigner,
(-30, 900) for company, (-30, 1650) for israeli, and for any other category
value the secondary placement is skipped entirely while the primary is still
placed. -/
theorem c6_claim (page0 : PdfPage) (rest : List PdfPage)
    (raster : PdfPage → ℕ × ℕ) (t : String) :
    primary_paste =
      { kind := SigKind.primary, size := (600, 600), pos := (350, 1320),
        maskIsImageAlpha := true } ∧
    (∀ pos, secondary_paste pos =
      { kind := SigKind.secondary, size := (650, 650), pos := pos,
        maskIsImageAlpha := true }) ∧
    add_signatures (page0 :: rest) "foreigner" raster =
      some (rasterized raster page0 [primary_paste, secondary_paste (-30, 1820)]
            :: rest.map (fun p => rasterized raster p [])) ∧
    add_signatures (page0 :: rest) "company" raster =
      some (rasterized raster page0 [primary_paste, secondary_paste (-30, 900)]
            :: rest.map (fun p => rasterized raster p [])) ∧
    add_signatures (page0 :: rest) "israeli" raster =
      some (rasterized raster page0 [primary_paste, secondary_paste (-30, 1650)]
            :: rest.map (fun p => rasterized raster p [])) ∧
    (t ≠ "foreigner" → t ≠ "company" → t ≠ "israeli" →
      add_signatures (page0 :: rest) t raster =
        some (rasterized raster page0 [primary_paste]
              :: rest.map (fun p => rasterized raster p []))) := by
  refine ⟨rfl, fun _ => rfl, rfl, rfl, rfl, ?_⟩
  intro h1 h2 h3
  simp [add_signatures, h1, h2, h3]

/-- Witness for the C6 theorem at a concrete page, rasterizer and an
unrecognized category value. -/
theorem c6_witness :
    add_signatures [sample_page] "other" (const_raster 5 7) =
      some [rasterized (const_raster 5 7) sample_page [primary_paste]] := by
  simpa using (c6_claim sample_page [] (const_raster 5 7) "other").2.2.2.2.2
    (by decide) (by decide) (by decide)

/-- Claim C7: for every gender value whose lowercasing is neither male nor
female, the Text Composer produces exactly the male-variant output (a total
fallback, never an error — the embedding is a total function); and for the
recognized values the produced lines carry the matching gendered vocabulary,
spelled out in male_variant_lines and female_variant_lines. -/
theorem c7_claim (d n i g : String) :
    ((py_str_lower g ≠ "male" ∧ py_str_lower g ≠ "female") →
      generate_declaration_text d n i g = generate_declaration_text d n i "male") ∧
    generate_declaration_text d n i "male" = male_variant_lines d n i ∧
    generate_declaration_text d n i "female" = female_variant_lines d n i := by
  refine ⟨?_, rfl, rfl⟩
  intro hg
  have hm : py_str_lower "male" = "male" := by decide
  simp [generate_declaration_text, gender_terms_get, hg.1, hg.2, hm]

/-- Witness for the C7 theorem at a concrete unrecognized gender value. -/
theorem c7_witness :
    generate_declaration_text "d" "n" "i" "robot" =
      generate_declaration_text "d" "n" "i" "male" :=
  (c7_claim "d" "n" "i" "robot").1 ⟨by decide, by decide⟩

set_option maxRecDepth 40000 in
/-- Claim C8: when the pipeline runs with a file already present at the
target output path, the trace of file-system operations is exactly: write
the intermediate file, remove the existing output file, write the stamped
document to the output path, write the rescaled document to the output path
— so the pre-deletion precedes every write to the output path, it is the
only removal the pipeline ever performs, and replaying the trace on any
initial store leaves exactly the newly produced document at the output path
(no stale leftover, no append). -/
theorem c8_claim (name idn : String) (p : PdfPage) (rest : List PdfPage)
    (folder t g date : String) (w h : ℕ) (fs : String → Option (List PdfPage))
    (hw : 0 < w) (hh : 0 < h)
    (hfile : (fs (os_path_join folder final_output_file)).isSome = true) :
    path_view (sign_declaration name idn (p :: rest) folder t g date (const_raster w h) fs) =
      some (os_path_join folder final_output_file) ∧
    removals_view (sign_declaration name idn (p :: rest) folder t g date (const_raster w h) fs) =
      some [FsOp.removeFile (os_path_join folder final_output_file)] ∧
    trace_shape_view (sign_declaration name idn (p :: rest) folder t g date (const_raster w h) fs) =
      some [(false, intermediate_output_file),
            (true, os_path_join folder final_output_file),
            (false, os_path_join folder final_output_file),
            (false, os_path_join folder final_output_file)] ∧
    ∀ fs0, trace_replays_ok fs0
      (sign_declaration name idn (p :: rest) folder t g date (const_raster w h) fs) := by
  have hwq : ((w : ℚ)) ≠ 0 := Nat.cast_ne_zero.mpr hw.ne'
  have hhq : ((h : ℚ)) ≠ 0 := Nat.cast_ne_zero.mpr hh.ne'
  refine ⟨?_, ?_, ?_, ?_⟩ <;>
    simp [sign_declaration, merge_pdfs, add_signatures, adjust_pdf_size, rasterized,
      const_raster, scale_by, hwq, hhq, hfile, path_view, removals_view, trace_shape_view,
      trace_replays_ok, runFs, applyFsOp, isRemoveOp, fsOpPath, List.filter]

/-- Witness for the C8 theorem: replaying the trace of a concrete run that
starts with a stale output file present leaves exactly the produced document
at the output path, even on an empty store. -/
theorem c8_witness :
    trace_replays_ok no_fs
      (sign_declaration "a" "1" [sample_page] "/out" "israeli" "male" "01-01-2020"
        (const_raster 1654 2339) fs_with_stale_output) :=
  (c8_claim "a" "1" sample_page [] "/out" "israeli" "male" "01-01-2020" 1654 2339
    fs_with_stale_output (by norm_num) (by norm_num) (by decide)).2.2.2 no_fs

/-- Claim C9: the directionality-processing function is length-preserving —
the processed line has exactly as many characters as the input line, for
every line and every date string (including the empty date, where Python
replace with an empty pattern inserts the empty replacement). -/
theorem c9_claim (line current_date : String) :
    (process_hebrew_text line current_date).length = line.length := by
  show (py_str_replace line.data.reverse current_date.data.reverse current_date.data).length =
    line.length
  by_cases hd : current_date.data.reverse = []
  · have hd0 : current_date.data = [] := by simpa using hd
    rw [py_str_replace, if_pos hd, hd0, List.nil_append, flatten_map_cons_length]
    simp
  · rw [py_str_replace, if_neg hd,
      replaceFuel_length _ _ (by simp) _ _ (le_refl line.data.reverse.length)]
    simp

/-- Claim C10: gender selection is case-insensitive — any gender value whose
ASCII lowercasing is one of the recognized values produces exactly the same
line list as the lowercased value, because the input is lowercased before
the vocabulary lookup. -/
theorem c10_claim (d n i g : String)
    (hg : py_str_lower g = "male" ∨ py_str_lower g = "female") :
    generate_declaration_text d n i g = generate_declaration_text d n i (py_str_lower g) := by
  have hm : py_str_lower "male" = "male" := by decide
  have hf : py_str_lower "female" = "female" := by decide
  rcases hg with hg | hg <;> simp [generate_declaration_text, hg, hm, hf]

/-- Witness for the C10 theorem at the capitalization variant FEMALE. -/
theorem c10_witness :
    generate_declaration_text "a" "b" "c" "FEMALE" =
      generate_declaration_text "a" "b" "c" (py_str_lower "FEMALE") :=
  c10_claim "a" "b" "c" "FEMALE" (Or.inr (by decide))

end DigitalSignatureDeclaration
